import Mathlib

/-!
Shallow embedding of the host agent Router-Coordinator of the a2a-retail-demo
repository (src/backend/agents/host_agent/agent.py and agent_executor.py).

The embedding models:
  * `_call_agent_with_a2a`  (agent.py lines 73-132): the single downstream A2A
    call, its response-shape extraction and its catch-all exception handler;
  * `call_agents_parallel`  (agent.py lines 142-170): the two concurrent branch
    calls gathered with return_exceptions=True, with completion order made
    explicit as a scheduling parameter;
  * `stream`                (agent.py lines 234-346): the routing dispatch on the
    LLM routing text, the per-branch offline checks, the yielded event sequence
    and the downstream calls it triggers;
  * `execute` input validation (agent_executor.py lines 42-46).

External collaborators (the HTTP transport, the downstream agents' replies, the
LLM that produces the routing-decision text, and asyncio-level exceptions in a
branch task) are oracles passed in as explicit function arguments, so every
definition is a total computable function of the code's inputs and those
oracles.  Python exceptions are represented with `Except`: a function that can
raise has an `Except` result, and a try/except block is a `match` on it.
-/

set_option maxRecDepth 40000

namespace HostAgentModel

/-- Substring helper: `isPre pat l` is true when `pat` is a prefix of `l`. -/
def isPre : List Char → List Char → Bool
  | [], _ => true
  | _ :: _, [] => false
  | a :: as, b :: bs => a == b && isPre as bs

/-- Auxiliary scan for substring containment over character lists. -/
def hasSubAux (pat : List Char) : List Char → Bool
  | [] => isPre pat []
  | c :: cs => isPre pat (c :: cs) || hasSubAux pat cs

/-- Python's `pat in s` substring test: `strHasSub s pat` is true when `pat`
occurs as a contiguous substring of `s` (true for the empty pattern, as in
Python). -/
def strHasSub (s pat : String) : Bool := hasSubAux pat.toList s.toList

/-- Agent URL constant from agent.py line 37. -/
def INVENTORY_AGENT_URL : String := "http://localhost:8001"

/-- Agent URL constant from agent.py line 38. -/
def CUSTOMER_SERVICE_AGENT_URL : String := "http://localhost:8002"

/-- One downstream A2A call as constructed by `_call_agent_with_a2a`
(agent.py lines 81-95): the target base URL, the message text (the query) and
the `contextId` field of the message. -/
structure Call where
  url : String
  query : String
  contextId : String
deriving DecidableEq

/-- An artifact of a Task response: the list of its parts, each part carrying
optional text (`part.root.text` when present, agent.py lines 112-115). -/
structure Artifact where
  parts : List (Option String)
deriving DecidableEq

/-- The status object of a Task response: its state string and the optional
text of its status message (agent.py lines 117-120). -/
structure TaskStatus where
  state : String
  message : Option String
deriving DecidableEq

/-- A Task response as accessed by `_call_agent_with_a2a`: id, artifacts and
optional status (agent.py lines 107-120). -/
structure TaskResult where
  id : String
  artifacts : List Artifact
  status : Option TaskStatus
deriving DecidableEq

/-- The possible shapes of the `result` object extracted from a downstream
response: a Task, a direct Message (whose joined text is the payload), or an
unexpected type (agent.py lines 106-128). -/
inductive SendResult
  | task (t : TaskResult)
  | message (text : String)
  | other
deriving DecidableEq

/-- Text extraction from a downstream response, transcribing agent.py lines
106-128: Task responses take artifact part texts joined by newline, falling
back to the status message, then to a synthesized status line; Message
responses take their text; anything else a fixed fallback string. -/
def extractText : SendResult → String
  | SendResult.task t =>
    if t.artifacts ≠ [] then
      let texts := t.artifacts.flatMap (fun a => a.parts.filterMap id)
      if texts ≠ [] then String.intercalate "\n" texts
      else "Task completed with no text response"
    else
      match t.status with
      | some st =>
        match st.message with
        | some m => m
        | none => "Task " ++ t.id ++ " status: " ++ st.state
      | none => "Task " ++ t.id ++ " status: unknown"
  | SendResult.message text => text
  | SendResult.other => "Received response but unable to extract text"

/-- Embedding of `_call_agent_with_a2a` (agent.py lines 73-132).  The transport
oracle maps the constructed call to either a response (`Except.ok`) or a raised
transport exception with its message (`Except.error`).  The function's
try/except converts any raised exception into the string
`"Error communicating with agent: " ++ e` and otherwise returns the extracted
response text; it never propagates the exception. -/
def callAgentWithA2a (transport : Call → Except String SendResult) (c : Call) : String :=
  match transport c with
  | Except.ok r => extractText r
  | Except.error e => "Error communicating with agent: " ++ e

/-- The two concurrent branches of the `Both` path (call_agents_parallel). -/
inductive Branch
  | inv
  | cs
deriving DecidableEq

/-- Result slots of `asyncio.gather`: each branch task writes its own settled
outcome (returned string, or exception captured by return_exceptions=True)
into its own slot; `none` means the branch has not settled yet. -/
structure GatherState where
  invSlot : Option (Except String String)
  csSlot : Option (Except String String)

/-- One branch settling: its outcome is written into its own slot; the other
branch's slot is untouched (no shared state between the branches). -/
def settleStep (s : GatherState) (b : Branch) (oi oc : Except String String) : GatherState :=
  match b with
  | Branch.inv => GatherState.mk (some oi) s.csSlot
  | Branch.cs => GatherState.mk s.invSlot (some oc)

/-- The gather phase of `call_agents_parallel`: the branches settle in the
completion order `order` (a scheduling choice of the event loop); `gather`
returns only after every listed branch has settled, so a meaningful `order`
contains both branches.  `oi` and `oc` are the inventory and customer-service
branch outcomes. -/
def runGather (order : List Branch) (oi oc : Except String String) : GatherState :=
  order.foldl (fun s b => settleStep s b oi oc) (GatherState.mk none none)

/-- The pair of per-branch responses returned by `call_agents_parallel`
(agent.py lines 167-170). -/
structure ParallelResponses where
  inventory : String
  customer_service : String
deriving DecidableEq

/-- Embedding of the result handling of `call_agents_parallel` (agent.py lines
154-170): after both branches settle (in completion order `order`), an
exception captured for a branch is replaced by that branch's error string and
a returned string is kept as is.  The `Except.error "pending"` defaults are
unreachable whenever `order` settles both branches, which `gather` guarantees. -/
def call_agents_parallel (order : List Branch) (oi oc : Except String String) :
    ParallelResponses :=
  let st := runGather order oi oc
  let invR := st.invSlot.getD (Except.error "pending")
  let csR := st.csSlot.getD (Except.error "pending")
  ParallelResponses.mk
    (match invR with
     | Except.ok s => s
     | Except.error e => "Error from inventory agent: " ++ e)
    (match csR with
     | Except.ok s => s
     | Except.error e => "Error from customer service agent: " ++ e)

/-- The combined response template of the `Both` path (agent.py lines 297-303):
a fixed header, the inventory section under its label, then the
customer-service section under its label. -/
def combinedResponse (p : ParallelResponses) : String :=
  "I\x27ve consulted both our inventory and customer service systems:\n\n**Inventory Information:**\n"
    ++ p.inventory
    ++ "\n\n**Customer Service Information:**\n"
    ++ p.customer_service

/-- The events yielded by `HostAgent.stream`, one constructor per dict shape
(keys "type", "message"/"agent"/"content") the generator yields. -/
inductive Event
  | status (message : String)
  | routing (agent : String) (message : String)
  | agent_response (agent : String)
  | result (content : String)
  | error (message : String)
deriving DecidableEq

/-- The oracles `stream` consults: whether each agent-card fetch succeeded
(agent.py lines 257-258), the routing-decision text produced by the LLM runner
(`none` when no final response with text parts arrived, agent.py lines
267-278), the downstream transport, and an asyncio-level exception (such as a
cancellation, not caught by `except Exception` inside the branch) raised by a
branch task of the parallel path and captured by gather's
return_exceptions=True. -/
structure StreamOracle where
  invCardOk : Bool
  csCardOk : Bool
  routingDecision : Option String
  transport : Call → Except String SendResult
  branchRaise : Branch → Option String

/-- The call dispatched to the inventory agent with the given query and
context id. -/
def invCall (query contextId : String) : Call :=
  Call.mk INVENTORY_AGENT_URL query contextId

/-- The call dispatched to the customer-service agent with the given query and
context id. -/
def csCall (query contextId : String) : Call :=
  Call.mk CUSTOMER_SERVICE_AGENT_URL query contextId

/-- Outcome of one branch task of `call_agents_parallel`: if the branch raised
at the asyncio level the exception is the outcome; otherwise the branch
returns the string produced by `_call_agent_with_a2a` (which has already
caught any transport exception). -/
def branchOutcome (o : StreamOracle) (b : Branch) (c : Call) : Except String String :=
  match o.branchRaise b with
  | some e => Except.error e
  | none => Except.ok (callAgentWithA2a o.transport c)

/-- Dispatch of `stream` on the routing-decision text `d` (agent.py lines
283-341), transcribing the substring checks in source order, the per-path
offline checks, the yielded events and the downstream calls. Returns the
yielded events paired with the trace of downstream calls dispatched. -/
def streamDispatch (o : StreamOracle) (order : List Branch)
    (query context_id : String) (d : String) : List Event × List Call :=
  if strHasSub d "ROUTE_TO_BOTH" then
    if !o.invCardOk || !o.csCardOk then
      ([Event.status "Analyzing your request...",
        Event.error "One or more agents are offline. Cannot execute parallel request."], [])
    else
      let ci := invCall query context_id
      let cc := csCall query context_id
      let responses := call_agents_parallel order
        (branchOutcome o Branch.inv ci) (branchOutcome o Branch.cs cc)
      ([Event.status "Analyzing your request...",
        Event.routing "both" "Coordinating with both inventory and customer service...",
        Event.agent_response "parallel",
        Event.result (combinedResponse responses)], [ci, cc])
  else if strHasSub d "ROUTE_TO_INVENTORY" then
    if !o.invCardOk then
      ([Event.status "Analyzing your request...",
        Event.error "Inventory agent is currently offline. Please try again later."], [])
    else
      let ci := invCall query context_id
      ([Event.status "Analyzing your request...",
        Event.routing "inventory" "Checking our inventory system...",
        Event.agent_response "inventory",
        Event.result (callAgentWithA2a o.transport ci)], [ci])
  else if strHasSub d "ROUTE_TO_CUSTOMER_SERVICE" then
    if !o.csCardOk then
      ([Event.status "Analyzing your request...",
        Event.error "Customer service agent is currently offline. Please try again later."], [])
    else
      let cc := csCall query context_id
      ([Event.status "Analyzing your request...",
        Event.routing "customer service" "Connecting you with customer service...",
        Event.agent_response "customer service",
        Event.result (callAgentWithA2a o.transport cc)], [cc])
  else
    ([Event.status "Analyzing your request...",
      Event.error "I couldn\x27t determine which agent should handle your request. Please try rephrasing your question."], [])

/-- Dispatch of `stream` on the optional routing-decision text: `None` or the
empty string are falsy in Python, so `if not routing_decision:` (agent.py line
278) yields the "Unable to determine routing" error with no downstream call. -/
def streamOnDecision (o : StreamOracle) (order : List Branch)
    (query context_id : String) (rd : Option String) : List Event × List Call :=
  match rd with
  | none =>
    ([Event.status "Analyzing your request...",
      Event.error "Unable to determine routing"], [])
  | some d =>
    if d = "" then
      ([Event.status "Analyzing your request...",
        Event.error "Unable to determine routing"], [])
    else streamDispatch o order query context_id d

/-- Body of `HostAgent.stream` (agent.py lines 236-341), inside the outer
try/except: the context id is the session id (line 254), the status event is
yielded, and control dispatches on the routing decision.  Every exception
point in the body is already handled at an inner boundary
(`_call_agent_with_a2a` catches transport errors, gather captures branch
exceptions), so the body always returns `Except.ok`; the `Except` result type
records that the body runs under the outer handler. -/
def streamBody (o : StreamOracle) (order : List Branch) (query session_id : String) :
    Except String (List Event × List Call) :=
  Except.ok (streamOnDecision o order query session_id o.routingDecision)

/-- `HostAgent.stream` with its outer `except Exception` handler (agent.py
lines 343-345): a raised exception would be converted into a final error
event. -/
def stream (o : StreamOracle) (order : List Branch) (query session_id : String) :
    List Event × List Call :=
  match streamBody o order query session_id with
  | Except.ok r => r
  | Except.error e => ([Event.error ("Error coordinating request: " ++ e)], [])

/-- The spec's RoutingDecision enumeration (spec.md section 3); in the code it
is realized implicitly by which branch of the dispatch chain of `stream` fires
on the routing-decision text. -/
inductive RoutingDecision
  | InventoryOnly
  | CustomerServiceOnly
  | Both
  | Undetermined
deriving DecidableEq

/-- The RoutingDecision realized by `stream` for a given routing-decision
text, mirroring exactly the branch structure of agent.py lines 278-341: a
falsy text and a text with none of the three tokens are both terminal
no-dispatch error paths (Undetermined). -/
def decideRoute : Option String → RoutingDecision
  | none => RoutingDecision.Undetermined
  | some d =>
    if d = "" then RoutingDecision.Undetermined
    else if strHasSub d "ROUTE_TO_BOTH" then RoutingDecision.Both
    else if strHasSub d "ROUTE_TO_INVENTORY" then RoutingDecision.InventoryOnly
    else if strHasSub d "ROUTE_TO_CUSTOMER_SERVICE" then RoutingDecision.CustomerServiceOnly
    else RoutingDecision.Undetermined

/-- One classification step as performed by `stream` (agent.py lines 240-276):
the runner fetches or creates the session for the session id, appends the new
user message to the session and runs the LLM over it; the LLM is an oracle
from the session history and the query to the optional routing text.  The
step returns the routing text together with the grown session history that a
later call with the same session id will see. -/
def classify (llm : List String → String → Option String)
    (history : List String) (query : String) : Option String × List String :=
  (llm history query, history ++ [query])

/-- Two consecutive classifications of the same query in the same session:
the second call sees the session history grown by the first (the runner
appended the first message to the session).  Returns the two realized
RoutingDecisions. -/
def classifyTwice (llm : List String → String → Option String)
    (history : List String) (query : String) : RoutingDecision × RoutingDecision :=
  let r1 := classify llm history query
  let r2 := classify llm r1.2 query
  (decideRoute r1.1, decideRoute r2.1)

/-- Input validation of `HostAgentExecutor.execute` (agent_executor.py lines
42-46): when the request has no message, or `get_user_input()` is falsy (the
empty string), a `ServerError(InvalidParamsError())` is raised before any
routing; otherwise the query is passed to `HostAgent.stream` with the task's
context id. -/
def execute (o : StreamOracle) (order : List Branch)
    (message : Option String) (contextId : String) :
    Except String (List Event × List Call) :=
  match message with
  | none => Except.error "InvalidParamsError"
  | some q =>
    if q = "" then Except.error "InvalidParamsError"
    else Except.ok (stream o order q contextId)

/-- A transport oracle answering every call with a direct Message response of
the given text. -/
def okMsgTransport (s : String) : Call → Except String SendResult :=
  fun _ => Except.ok (SendResult.message s)

/-- A transport oracle raising a transport exception with the given message on
every call. -/
def failTransport (e : String) : Call → Except String SendResult :=
  fun _ => Except.error e

/-- A branch oracle under which no branch task raises at the asyncio level. -/
def noRaise : Branch → Option String := fun _ => none

/-- Concrete oracle: both agents online, routing text ROUTE_TO_BOTH, inventory
branch raising "boom" at the asyncio level, customer-service branch answering
"Our hours are 9-9". -/
def oracleBothInvRaise : StreamOracle :=
  StreamOracle.mk true true (some "ROUTE_TO_BOTH") (okMsgTransport "Our hours are 9-9")
    (fun b => match b with
      | Branch.inv => some "boom"
      | Branch.cs => none)

/-- Concrete oracle: both agents online, routing text ROUTE_TO_INVENTORY,
transport answering "We have 3 models.". -/
def oracleInvRoute : StreamOracle :=
  StreamOracle.mk true true (some "ROUTE_TO_INVENTORY")
    (okMsgTransport "We have 3 models.") noRaise

/-- Concrete oracle: both agents online, routing text ROUTE_TO_INVENTORY,
transport raising the given exception message on every call. -/
def oracleInvFail (e : String) : StreamOracle :=
  StreamOracle.mk true true (some "ROUTE_TO_INVENTORY") (failTransport e) noRaise

/-- Concrete oracle: inventory agent-card check failed, customer-service card
ok, routing text ROUTE_TO_BOTH. -/
def oracleInvOffline : StreamOracle :=
  StreamOracle.mk false true (some "ROUTE_TO_BOTH") (okMsgTransport "x") noRaise

/-- Concrete oracle: both agents online, routing text with none of the three
routing tokens. -/
def oracleUnrouted : StreamOracle :=
  StreamOracle.mk true true (some "BANANA") (okMsgTransport "x") noRaise

/-- Concrete oracle: both agents online, routing text ROUTE_TO_BOTH, both
branches succeeding with distinct texts. -/
def oracleBothOk : StreamOracle :=
  StreamOracle.mk true true (some "ROUTE_TO_BOTH")
    (fun c => if c.url = INVENTORY_AGENT_URL then Except.ok (SendResult.message "inv-text")
      else Except.ok (SendResult.message "cs-text")) noRaise

/-- An LLM oracle whose answer depends on the session history: inventory
routing on a fresh session, customer-service routing once the session has any
prior message.  A behavior of this shape is admissible for the LLM collaborator
because the runner reuses and grows the per-session history. -/
def llmStateful : List String → String → Option String :=
  fun h _ => if h = [] then some "ROUTE_TO_INVENTORY" else some "ROUTE_TO_CUSTOMER_SERVICE"

example :
    stream oracleInvRoute [Branch.inv, Branch.cs] "What smart TVs do you have?" "sess-1"
    = ([Event.status "Analyzing your request...",
        Event.routing "inventory" "Checking our inventory system...",
        Event.agent_response "inventory",
        Event.result "We have 3 models."],
       [Call.mk INVENTORY_AGENT_URL "What smart TVs do you have?" "sess-1"]) := by
  decide

example :
    (stream oracleBothInvRaise [Branch.cs, Branch.inv] "q" "s").1.getLast?
    = some (Event.result ("I\x27ve consulted both our inventory and customer service systems:\n\n**Inventory Information:**\nError from inventory agent: boom\n\n**Customer Service Information:**\nOur hours are 9-9")) := by
  decide

example : classifyTwice llmStateful [] "check order ORD-1 and stock"
    = (RoutingDecision.InventoryOnly, RoutingDecision.CustomerServiceOnly) := by
  decide

/-- C3: the Coordinator never lets a downstream transport exception escape to
its caller.  First conjunct: the body of `stream` returns normally (an
`Except.ok` value, never a raised exception) for every oracle, completion
order and input, because each exception point is handled at an inner boundary.
Second conjunct: a transport exception raised during a downstream call is
caught at the branch boundary by `_call_agent_with_a2a` and converted to the
user-facing string `"Error communicating with agent: " ++ e`.  Third conjunct:
in a parallel branch, that same conversion makes the branch return the string
normally, so gather records an ordinary string outcome, not an exception. -/
theorem c3_no_exception_escape :
    (∀ (o : StreamOracle) (order : List Branch) (q sid : String),
        ∃ r, streamBody o order q sid = Except.ok r) ∧
    (∀ (t : Call → Except String SendResult) (c : Call) (e : String),
        t c = Except.error e →
        callAgentWithA2a t c = "Error communicating with agent: " ++ e) ∧
    (∀ (o : StreamOracle) (b : Branch) (c : Call) (e : String),
        o.branchRaise b = none → o.transport c = Except.error e →
        branchOutcome o b c = Except.ok ("Error communicating with agent: " ++ e)) := by
  refine ⟨fun o order q sid => ⟨_, rfl⟩, fun t c e h => ?_, fun o b c e hb ht => ?_⟩
  · unfold callAgentWithA2a
    rw [h]
  · unfold branchOutcome callAgentWithA2a
    rw [hb, ht]

/-- Witness for C3 at concrete inputs: a transport failing with "boom" yields
the converted error string and an `Except.ok` stream body. -/
theorem c3_witness :
    (∃ r, streamBody (oracleInvFail "boom") [Branch.inv, Branch.cs] "q" "s" = Except.ok r) ∧
    callAgentWithA2a (failTransport "boom") (invCall "q" "s")
      = "Error communicating with agent: boom" ∧
    branchOutcome (oracleInvFail "boom") Branch.inv (invCall "q" "s")
      = Except.ok ("Error communicating with agent: boom") :=
  ⟨c3_no_exception_escape.1 (oracleInvFail "boom") [Branch.inv, Branch.cs] "q" "s",
   c3_no_exception_escape.2.1 (failTransport "boom") (invCall "q" "s") "boom" rfl,
   c3_no_exception_escape.2.2 (oracleInvFail "boom") Branch.inv (invCall "q" "s") "boom" rfl rfl⟩

/-- C6: in the Both path, if the agent-card check failed for either agent, the
Coordinator yields only the agents-offline error and dispatches no downstream
call at all (empty call trace), so the agent whose card check succeeded is not
consulted either. -/
theorem c6_both_offline_no_dispatch (o : StreamOracle) (order : List Branch)
    (q sid d : String)
    (hrd : o.routingDecision = some d) (hne : d ≠ "")
    (hboth : strHasSub d "ROUTE_TO_BOTH" = true)
    (hcard : o.invCardOk = false ∨ o.csCardOk = false) :
    streamBody o order q sid = Except.ok
      ([Event.status "Analyzing your request...",
        Event.error "One or more agents are offline. Cannot execute parallel request."],
       []) := by
  unfold streamBody
  rw [hrd]
  rcases hcard with h | h <;> simp [streamOnDecision, streamDispatch, hne, hboth, h]

/-- Witness for C6: with the inventory card check failed and a ROUTE_TO_BOTH
decision, only the offline error is yielded and the trace is empty. -/
theorem c6_witness :
    oracleInvOffline.invCardOk = false ∧
    streamBody oracleInvOffline [Branch.inv, Branch.cs] "q" "s" = Except.ok
      ([Event.status "Analyzing your request...",
        Event.error "One or more agents are offline. Cannot execute parallel request."],
       []) :=
  ⟨rfl, c6_both_offline_no_dispatch oracleInvOffline [Branch.inv, Branch.cs] "q" "s"
    "ROUTE_TO_BOTH" rfl (by decide) (by decide) (Or.inl rfl)⟩

/-- C7: every downstream call dispatched by `stream` carries exactly the
context id (the session id, agent.py line 254) and the query text it was
invoked with — the Coordinator passes the context id through unchanged in
every routing path. -/
theorem c7_context_id_passthrough (o : StreamOracle) (order : List Branch)
    (q sid : String) :
    ∀ c ∈ (stream o order q sid).2, c.contextId = sid ∧ c.query = q := by
  intro c hc
  rcases hrd : o.routingDecision with _ | d
  · simp [stream, streamBody, streamOnDecision, hrd] at hc
  · by_cases h0 : d = ""
    · simp [stream, streamBody, streamOnDecision, hrd, h0] at hc
    · simp only [stream, streamBody, streamOnDecision, streamDispatch, hrd, h0] at hc
      split_ifs at hc <;> simp_all [invCall, csCall]
      rcases hc with hc | hc <;> simp_all

/-- Witness for C7: the single call of a concrete inventory-routed stream
carries the session id as its context id. -/
theorem c7_witness :
    Call.mk INVENTORY_AGENT_URL "q" "sess-7"
        ∈ (stream oracleInvRoute [Branch.inv, Branch.cs] "q" "sess-7").2 ∧
    (Call.mk INVENTORY_AGENT_URL "q" "sess-7").contextId = "sess-7" :=
  ⟨by decide,
   (c7_context_id_passthrough oracleInvRoute [Branch.inv, Branch.cs] "q" "sess-7"
      (Call.mk INVENTORY_AGENT_URL "q" "sess-7") (by decide)).1⟩

/-- C10: when the routing text contains none of the three recognized routing
tokens, `stream` yields the fixed could-not-determine message and dispatches
no downstream call (empty trace). -/
theorem c10_unrecognized_routing_no_dispatch (o : StreamOracle) (order : List Branch)
    (q sid d : String)
    (hrd : o.routingDecision = some d) (hne : d ≠ "")
    (h1 : strHasSub d "ROUTE_TO_BOTH" = false)
    (h2 : strHasSub d "ROUTE_TO_INVENTORY" = false)
    (h3 : strHasSub d "ROUTE_TO_CUSTOMER_SERVICE" = false) :
    streamBody o order q sid = Except.ok
      ([Event.status "Analyzing your request...",
        Event.error "I couldn\x27t determine which agent should handle your request. Please try rephrasing your question."],
       []) := by
  unfold streamBody
  rw [hrd]
  simp [streamOnDecision, streamDispatch, hne, h1, h2, h3]

/-- Witness for C10: the routing text "BANANA" has no routing token; only the
fixed message is yielded and the trace is empty. -/
theorem c10_witness :
    oracleUnrouted.routingDecision = some "BANANA" ∧
    streamBody oracleUnrouted [Branch.inv, Branch.cs] "q" "s" = Except.ok
      ([Event.status "Analyzing your request...",
        Event.error "I couldn\x27t determine which agent should handle your request. Please try rephrasing your question."],
       []) :=
  ⟨rfl, c10_unrecognized_routing_no_dispatch oracleUnrouted [Branch.inv, Branch.cs] "q" "s"
    "BANANA" rfl (by decide) (by decide) (by decide) (by decide)⟩

/-- The inventory branch outcome as it is rendered into the combined response:
the branch's returned text, or the per-branch error string when the branch
task raised (agent.py lines 162-163). -/
def renderedInv (o : StreamOracle) (q sid : String) : String :=
  match branchOutcome o Branch.inv (invCall q sid) with
  | Except.ok s => s
  | Except.error e => "Error from inventory agent: " ++ e

/-- The customer-service branch outcome as it is rendered into the combined
response: the branch's returned text, or the per-branch error string when the
branch task raised (agent.py lines 164-165). -/
def renderedCs (o : StreamOracle) (q sid : String) : String :=
  match branchOutcome o Branch.cs (csCall q sid) with
  | Except.ok s => s
  | Except.error e => "Error from customer service agent: " ++ e

/-- C1: in the Both path, with both cards online, the stream waits for both
branches to settle (in either completion order) and completes normally; a
branch that raises becomes exactly its per-branch error string in the combined
result while the other branch's successful text is still reported, and both
calls were dispatched.  The two conjuncts cover the failure in either branch. -/
theorem c1_partial_failure_isolation (o : StreamOracle) (order : List Branch)
    (q sid d : String)
    (hrd : o.routingDecision = some d) (hne : d ≠ "")
    (hboth : strHasSub d "ROUTE_TO_BOTH" = true)
    (hinv : o.invCardOk = true) (hcs : o.csCardOk = true)
    (horder : order = [Branch.inv, Branch.cs] ∨ order = [Branch.cs, Branch.inv]) :
    (∀ e s, o.branchRaise Branch.inv = some e → o.branchRaise Branch.cs = none →
      o.transport (csCall q sid) = Except.ok (SendResult.message s) →
      streamBody o order q sid = Except.ok
        ([Event.status "Analyzing your request...",
          Event.routing "both" "Coordinating with both inventory and customer service...",
          Event.agent_response "parallel",
          Event.result (combinedResponse
            (ParallelResponses.mk ("Error from inventory agent: " ++ e) s))],
         [invCall q sid, csCall q sid])) ∧
    (∀ e s, o.branchRaise Branch.cs = some e → o.branchRaise Branch.inv = none →
      o.transport (invCall q sid) = Except.ok (SendResult.message s) →
      streamBody o order q sid = Except.ok
        ([Event.status "Analyzing your request...",
          Event.routing "both" "Coordinating with both inventory and customer service...",
          Event.agent_response "parallel",
          Event.result (combinedResponse
            (ParallelResponses.mk s ("Error from customer service agent: " ++ e)))],
         [invCall q sid, csCall q sid])) := by
  constructor <;> intro e s h1 h2 h3 <;> unfold streamBody <;> rw [hrd] <;>
    rcases horder with ho | ho <;> subst ho <;>
    simp [streamOnDecision, streamDispatch, hne, hboth, hinv, hcs,
      call_agents_parallel, runGather, settleStep, branchOutcome, h1, h2, h3,
      callAgentWithA2a, extractText]

/-- Witness for C1: inventory branch raising "boom", customer-service branch
answering "Our hours are 9-9", customer-service settling first; the combined
result reports both outcomes and the body is an `Except.ok` value. -/
theorem c1_witness :
    oracleBothInvRaise.branchRaise Branch.inv = some "boom" ∧
    streamBody oracleBothInvRaise [Branch.cs, Branch.inv] "q" "s" = Except.ok
      ([Event.status "Analyzing your request...",
        Event.routing "both" "Coordinating with both inventory and customer service...",
        Event.agent_response "parallel",
        Event.result (combinedResponse
          (ParallelResponses.mk ("Error from inventory agent: " ++ "boom") "Our hours are 9-9"))],
       [invCall "q" "s", csCall "q" "s"]) :=
  ⟨rfl,
   (c1_partial_failure_isolation oracleBothInvRaise [Branch.cs, Branch.inv] "q" "s"
      "ROUTE_TO_BOTH" rfl (by decide) (by decide) rfl rfl (Or.inr rfl)).1
     "boom" "Our hours are 9-9" rfl rfl rfl⟩

/-- C2: in the Both path with both cards online, for either completion order
of the two branches, the stream yields the same combined result: the fixed
header, then the inventory section (the rendered inventory branch outcome
under its label), then the customer-service section — the inventory section
always precedes the customer-service section, independently of which branch
settled first. -/
theorem c2_inventory_section_first (o : StreamOracle) (q sid d : String)
    (hrd : o.routingDecision = some d) (hne : d ≠ "")
    (hboth : strHasSub d "ROUTE_TO_BOTH" = true)
    (hinv : o.invCardOk = true) (hcs : o.csCardOk = true) :
    ∀ order, order = [Branch.inv, Branch.cs] ∨ order = [Branch.cs, Branch.inv] →
      streamBody o order q sid = Except.ok
        ([Event.status "Analyzing your request...",
          Event.routing "both" "Coordinating with both inventory and customer service...",
          Event.agent_response "parallel",
          Event.result
            ("I\x27ve consulted both our inventory and customer service systems:\n\n**Inventory Information:**\n"
              ++ renderedInv o q sid
              ++ "\n\n**Customer Service Information:**\n"
              ++ renderedCs o q sid)],
         [invCall q sid, csCall q sid]) := by
  intro order horder
  unfold streamBody
  rw [hrd]
  rcases horder with ho | ho <;> subst ho <;>
    rcases hi : branchOutcome o Branch.inv (invCall q sid) with ei | si <;>
    rcases hc : branchOutcome o Branch.cs (csCall q sid) with ec | sc <;>
    simp [streamOnDecision, streamDispatch, hne, hboth, hinv, hcs,
      call_agents_parallel, runGather, settleStep, combinedResponse,
      renderedInv, renderedCs, hi, hc]

/-- Witness for C2: with both branches succeeding and either completion order,
the combined result places the inventory section before the customer-service
section. -/
theorem c2_witness :
    streamBody oracleBothOk [Branch.cs, Branch.inv] "q" "s" = Except.ok
      ([Event.status "Analyzing your request...",
        Event.routing "both" "Coordinating with both inventory and customer service...",
        Event.agent_response "parallel",
        Event.result
          ("I\x27ve consulted both our inventory and customer service systems:\n\n**Inventory Information:**\n"
            ++ renderedInv oracleBothOk "q" "s"
            ++ "\n\n**Customer Service Information:**\n"
            ++ renderedCs oracleBothOk "q" "s")],
       [invCall "q" "s", csCall "q" "s"]) :=
  c2_inventory_section_first oracleBothOk "q" "s" "ROUTE_TO_BOTH" rfl (by decide)
    (by decide) rfl rfl [Branch.cs, Branch.inv] (Or.inr rfl)

/-- C8: for a single-route decision (inventory first conjunct, customer
service second), with the routed agent's card online and its endpoint
succeeding with a Message response of text `s`, the stream dispatches exactly
one downstream call (the singleton trace) carrying the query and context id,
and yields `s` itself — the endpoint's response text verbatim — as the final
result. -/
theorem c8_single_route_verbatim (o : StreamOracle) (order : List Branch)
    (q sid d s : String)
    (hrd : o.routingDecision = some d) (hne : d ≠ "")
    (hnb : strHasSub d "ROUTE_TO_BOTH" = false) :
    (strHasSub d "ROUTE_TO_INVENTORY" = true → o.invCardOk = true →
      o.transport (invCall q sid) = Except.ok (SendResult.message s) →
      streamBody o order q sid = Except.ok
        ([Event.status "Analyzing your request...",
          Event.routing "inventory" "Checking our inventory system...",
          Event.agent_response "inventory",
          Event.result s],
         [invCall q sid])) ∧
    (strHasSub d "ROUTE_TO_INVENTORY" = false →
      strHasSub d "ROUTE_TO_CUSTOMER_SERVICE" = true → o.csCardOk = true →
      o.transport (csCall q sid) = Except.ok (SendResult.message s) →
      streamBody o order q sid = Except.ok
        ([Event.status "Analyzing your request...",
          Event.routing "customer service" "Connecting you with customer service...",
          Event.agent_response "customer service",
          Event.result s],
         [csCall q sid])) := by
  constructor
  · intro hi hcard ht
    unfold streamBody
    rw [hrd]
    simp [streamOnDecision, streamDispatch, hne, hnb, hi, hcard,
      callAgentWithA2a, ht, extractText]
  · intro hi hc hcard ht
    unfold streamBody
    rw [hrd]
    simp [streamOnDecision, streamDispatch, hne, hnb, hi, hc, hcard,
      callAgentWithA2a, ht, extractText]

/-- Witness for C8: the end-to-end inventory scenario of the spec, query
"What smart TVs do you have?" with context "sess-1" and endpoint text
"We have 3 models.", returned verbatim with a single dispatched call. -/
theorem c8_witness :
    streamBody oracleInvRoute [Branch.inv, Branch.cs] "What smart TVs do you have?" "sess-1"
      = Except.ok
        ([Event.status "Analyzing your request...",
          Event.routing "inventory" "Checking our inventory system...",
          Event.agent_response "inventory",
          Event.result "We have 3 models."],
         [invCall "What smart TVs do you have?" "sess-1"]) :=
  (c8_single_route_verbatim oracleInvRoute [Branch.inv, Branch.cs]
      "What smart TVs do you have?" "sess-1" "ROUTE_TO_INVENTORY" "We have 3 models."
      rfl (by decide) (by decide)).1 (by decide) rfl rfl

/-- An LLM oracle whose answer ignores the session history and the query. -/
def llmConstBoth : List String → String → Option String :=
  fun _ _ => some "ROUTE_TO_BOTH"

/-- C4 counterexample: the classification is not a pure function of the query
text alone.  The code runs the LLM over the per-session history that the
runner grows with each message (agent.py lines 240-276), so under the
admissible history-sensitive LLM behavior `llmStateful`, classifying the very
same query twice in the same session yields InventoryOnly first and
CustomerServiceOnly second — two different RoutingDecisions for one input. -/
theorem c4_counterexample :
    (classifyTwice llmStateful [] "check order ORD-1 and stock").1
      = RoutingDecision.InventoryOnly ∧
    (classifyTwice llmStateful [] "check order ORD-1 and stock").2
      = RoutingDecision.CustomerServiceOnly ∧
    (classifyTwice llmStateful [] "check order ORD-1 and stock").1
      ≠ (classifyTwice llmStateful [] "check order ORD-1 and stock").2 := by
  decide

/-- C4 amended: the classification is a function of the LLM collaborator and
the mutable session history, not of the query text alone; two classifications
of the same query agree whenever the LLM's answer is independent of the
session history (and can disagree otherwise, as the counterexample shows). -/
theorem c4_amended_idempotent_when_history_free
    (llm : List String → String → Option String) (h : List String) (q : String)
    (hfree : ∀ h1 h2 x, llm h1 x = llm h2 x) :
    (classifyTwice llm h q).1 = (classifyTwice llm h q).2 := by
  show decideRoute (llm h q) = decideRoute (llm (h ++ [q]) q)
  exact congrArg decideRoute (hfree h (h ++ [q]) q)

/-- Witness for the amended C4: under a history-free LLM, the two
classifications of one query coincide. -/
theorem c4_amended_witness :
    (classifyTwice llmConstBoth [] "check order ORD-1 and stock").1
      = (classifyTwice llmConstBoth [] "check order ORD-1 and stock").2 :=
  c4_amended_idempotent_when_history_free llmConstBoth [] "check order ORD-1 and stock"
    (fun _ _ _ => rfl)

/-- C5 counterexample: an empty query is not routed to the customer-service
agent — `HostAgentExecutor.execute` raises `ServerError(InvalidParamsError())`
before any classification (agent_executor.py lines 42-44).  And a
whitespace-only query passes that validation and follows the classifier's
decision: with routing text ROUTE_TO_INVENTORY it is dispatched to the
inventory agent, not to customer service. -/
theorem c5_counterexample :
    execute oracleInvRoute [Branch.inv, Branch.cs] (some "") "ctx"
        = Except.error "InvalidParamsError" ∧
    execute oracleInvRoute [Branch.inv, Branch.cs] (some " ") "ctx"
        = Except.ok
          ([Event.status "Analyzing your request...",
            Event.routing "inventory" "Checking our inventory system...",
            Event.agent_response "inventory",
            Event.result "We have 3 models."],
           [Call.mk INVENTORY_AGENT_URL " " "ctx"]) :=
  ⟨rfl, rfl⟩

/-- C5 amended: an absent message or an empty query is rejected with an
invalid-params server error before any routing, and every non-empty query
(whitespace-only included) is passed unchanged to `stream` and routed per the
classifier's decision — nothing defaults empty input to customer service. -/
theorem c5_amended_empty_rejected (o : StreamOracle) (order : List Branch)
    (ctx q : String) :
    execute o order none ctx = Except.error "InvalidParamsError" ∧
    execute o order (some "") ctx = Except.error "InvalidParamsError" ∧
    (q ≠ "" → execute o order (some q) ctx = Except.ok (stream o order q ctx)) := by
  refine ⟨rfl, by simp [execute], fun hq => ?_⟩
  simp [execute, hq]

/-- Witness for the amended C5 at concrete inputs. -/
theorem c5_amended_witness :
    execute oracleInvRoute [Branch.inv, Branch.cs] none "c"
        = Except.error "InvalidParamsError" ∧
    execute oracleInvRoute [Branch.inv, Branch.cs] (some "x") "c"
        = Except.ok (stream oracleInvRoute [Branch.inv, Branch.cs] "x" "c") :=
  ⟨(c5_amended_empty_rejected oracleInvRoute [Branch.inv, Branch.cs] "c" "x").1,
   (c5_amended_empty_rejected oracleInvRoute [Branch.inv, Branch.cs] "c" "x").2.2
     (by decide)⟩

/-- C9 counterexample: the message produced for a failed single-route
downstream call is not a fixed unavailability message naming the failed agent.
With the inventory route and a transport failure "boom", the final result is
"Error communicating with agent: boom": it varies with the underlying error
(so it is not fixed — "bam" gives a different message) and it contains no
occurrence of "nventory", so it does not name the inventory agent. -/
theorem c9_counterexample :
    stream (oracleInvFail "boom") [Branch.inv, Branch.cs] "find tv" "s1"
      = ([Event.status "Analyzing your request...",
          Event.routing "inventory" "Checking our inventory system...",
          Event.agent_response "inventory",
          Event.result "Error communicating with agent: boom"],
         [Call.mk INVENTORY_AGENT_URL "find tv" "s1"]) ∧
    stream (oracleInvFail "bam") [Branch.inv, Branch.cs] "find tv" "s1"
      = ([Event.status "Analyzing your request...",
          Event.routing "inventory" "Checking our inventory system...",
          Event.agent_response "inventory",
          Event.result "Error communicating with agent: bam"],
         [Call.mk INVENTORY_AGENT_URL "find tv" "s1"]) ∧
    ("Error communicating with agent: boom" : String)
      ≠ "Error communicating with agent: bam" ∧
    strHasSub "Error communicating with agent: boom" "nventory" = false := by
  decide

/-- Concrete oracle: both agents online, routing text
ROUTE_TO_CUSTOMER_SERVICE, transport raising "boom" on every call. -/
def oracleCsFail : StreamOracle :=
  StreamOracle.mk true true (some "ROUTE_TO_CUSTOMER_SERVICE") (failTransport "boom") noRaise

/-- Concrete oracle: inventory card check failed, routing text
ROUTE_TO_INVENTORY. -/
def oracleInvRouteOffline : StreamOracle :=
  StreamOracle.mk false true (some "ROUTE_TO_INVENTORY") (okMsgTransport "x") noRaise

/-- Concrete oracle: customer-service card check failed, routing text
ROUTE_TO_CUSTOMER_SERVICE. -/
def oracleCsRouteOffline : StreamOracle :=
  StreamOracle.mk true false (some "ROUTE_TO_CUSTOMER_SERVICE") (okMsgTransport "x") noRaise

/-- C9 amended: on a transport failure of the single dispatched call of either
single route, the Coordinator completes normally (no exception), makes exactly
that one downstream call (no retry), and returns as the result the generic
string "Error communicating with agent: " followed by the failure reason — a
message that embeds the reason and does not name which agent failed (first two
conjuncts, one per route).  The fixed unavailability message naming the agent
is produced only by the pre-dispatch agent-card check: the last two conjuncts
show that the card-check failure paths — the only remaining paths of these two
routes — yield exactly "Inventory agent is currently offline. Please try
again later." and "Customer service agent is currently offline. Please try
again later." respectively, with no downstream call at all. -/
theorem c9_amended_generic_error_result (o : StreamOracle) (order : List Branch)
    (q sid d : String)
    (hrd : o.routingDecision = some d) (hne : d ≠ "")
    (hnb : strHasSub d "ROUTE_TO_BOTH" = false) :
    (∀ e, strHasSub d "ROUTE_TO_INVENTORY" = true → o.invCardOk = true →
      o.transport (invCall q sid) = Except.error e →
      streamBody o order q sid = Except.ok
        ([Event.status "Analyzing your request...",
          Event.routing "inventory" "Checking our inventory system...",
          Event.agent_response "inventory",
          Event.result ("Error communicating with agent: " ++ e)],
         [invCall q sid])) ∧
    (∀ e, strHasSub d "ROUTE_TO_INVENTORY" = false →
      strHasSub d "ROUTE_TO_CUSTOMER_SERVICE" = true → o.csCardOk = true →
      o.transport (csCall q sid) = Except.error e →
      streamBody o order q sid = Except.ok
        ([Event.status "Analyzing your request...",
          Event.routing "customer service" "Connecting you with customer service...",
          Event.agent_response "customer service",
          Event.result ("Error communicating with agent: " ++ e)],
         [csCall q sid])) ∧
    (strHasSub d "ROUTE_TO_INVENTORY" = true → o.invCardOk = false →
      streamBody o order q sid = Except.ok
        ([Event.status "Analyzing your request...",
          Event.error "Inventory agent is currently offline. Please try again later."],
         [])) ∧
    (strHasSub d "ROUTE_TO_INVENTORY" = false →
      strHasSub d "ROUTE_TO_CUSTOMER_SERVICE" = true → o.csCardOk = false →
      streamBody o order q sid = Except.ok
        ([Event.status "Analyzing your request...",
          Event.error "Customer service agent is currently offline. Please try again later."],
         [])) := by
  refine ⟨fun e hi hcard hfail => ?_, fun e hi hc hcard hfail => ?_,
    fun hi hcard => ?_, fun hi hc hcard => ?_⟩ <;>
      unfold streamBody <;> rw [hrd]
  · simp [streamOnDecision, streamDispatch, hne, hnb, hi, hcard,
      callAgentWithA2a, hfail]
  · simp [streamOnDecision, streamDispatch, hne, hnb, hi, hc, hcard,
      callAgentWithA2a, hfail]
  · simp [streamOnDecision, streamDispatch, hne, hnb, hi, hcard]
  · simp [streamOnDecision, streamDispatch, hne, hnb, hi, hc, hcard]

/-- Witness for the amended C9 at concrete inputs: a failing inventory-routed
transport, a failing customer-service-routed transport, and the two card-check
failure paths with their fixed agent-naming messages. -/
theorem c9_amended_witness :
    streamBody (oracleInvFail "boom") [Branch.inv, Branch.cs] "find tv" "s1"
      = Except.ok
        ([Event.status "Analyzing your request...",
          Event.routing "inventory" "Checking our inventory system...",
          Event.agent_response "inventory",
          Event.result ("Error communicating with agent: " ++ "boom")],
         [invCall "find tv" "s1"]) ∧
    streamBody oracleCsFail [Branch.inv, Branch.cs] "store hours" "s2"
      = Except.ok
        ([Event.status "Analyzing your request...",
          Event.routing "customer service" "Connecting you with customer service...",
          Event.agent_response "customer service",
          Event.result ("Error communicating with agent: " ++ "boom")],
         [csCall "store hours" "s2"]) ∧
    streamBody oracleInvRouteOffline [Branch.inv, Branch.cs] "find tv" "s3"
      = Except.ok
        ([Event.status "Analyzing your request...",
          Event.error "Inventory agent is currently offline. Please try again later."],
         []) ∧
    streamBody oracleCsRouteOffline [Branch.inv, Branch.cs] "store hours" "s4"
      = Except.ok
        ([Event.status "Analyzing your request...",
          Event.error "Customer service agent is currently offline. Please try again later."],
         []) :=
  ⟨(c9_amended_generic_error_result (oracleInvFail "boom") [Branch.inv, Branch.cs]
      "find tv" "s1" "ROUTE_TO_INVENTORY" rfl (by decide) (by decide)).1
      "boom" (by decide) rfl rfl,
   (c9_amended_generic_error_result oracleCsFail [Branch.inv, Branch.cs]
      "store hours" "s2" "ROUTE_TO_CUSTOMER_SERVICE" rfl (by decide) (by decide)).2.1
      "boom" (by decide) (by decide) rfl rfl,
   (c9_amended_generic_error_result oracleInvRouteOffline [Branch.inv, Branch.cs]
      "find tv" "s3" "ROUTE_TO_INVENTORY" rfl (by decide) (by decide)).2.2.1
      (by decide) rfl,
   (c9_amended_generic_error_result oracleCsRouteOffline [Branch.inv, Branch.cs]
      "store hours" "s4" "ROUTE_TO_CUSTOMER_SERVICE" rfl (by decide) (by decide)).2.2.2
      (by decide) (by decide) rfl⟩

end HostAgentModel
